import Mathlib

/-!
Verification development for the `lbgpfx` data-completeness pipeline.

Shallow embedding of the reconciliation core spread over
`check_and_refetch.py` and `fetch_history_data.py`:
per-day snapshot checking, the checked-date marker store, the refetch
orchestrator's write/classification logic, and the multi-token fetch
client (`ZhituAPIFetcher`).
-/

namespace Lbgpfx

/-- The three pool categories: `limit_up` (涨停), `limit_down` (跌停),
`explode` (炸板). -/
inductive Cat where
  | limitUp
  | limitDown
  | explode
  deriving DecidableEq, Repr

/-- State of one per-day category JSON file as the checker observes it:
absent on disk, present but failing `json.load` (or not supporting
`.get`, which raises inside the same `try`), or parsed as a dict whose
`count` key holds the integer `c` (`data.get('count', 0)`: an absent key
is represented by `c = 0`, exactly the default the code applies). -/
inductive FileState where
  | missing
  | corrupt
  | parsed (count : Int)
  deriving DecidableEq, Repr

/-- Issue strings appended by the per-category block of
`check_and_refetch_data` (lines 124-161): 缺失 / 损坏 / 为0. -/
inductive Issue where
  | fileMissing (c : Cat)
  | fileCorrupt (c : Cat)
  | countZero (c : Cat)
  deriving DecidableEq, Repr

/-- `date in checked_dates` / `checked_dates[date]` on the marker dict,
embedded as association-list lookup. -/
def lookupMarker : List (String × String) → String → Option String
  | [], _ => none
  | (k, v) :: rest, d => if k = d then some v else lookupMarker rest d

/-- One per-category check block of `check_and_refetch_data`
(e.g. lines 124-135 for 涨停): missing file → 缺失 issue; exception
while reading/parsing → 损坏 issue; parsed with `count == 0` → 为0
issue; otherwise no issue. -/
def fileIssue (c : Cat) : FileState → Option Issue
  | .missing => some (.fileMissing c)
  | .corrupt => some (.fileCorrupt c)
  | .parsed n => if n = 0 then some (.countZero c) else none

/-- The `issues` list accumulated for one date over the three category
files, in the source's order limit_up, limit_down, explode. -/
def dateIssues (fs : Cat → FileState) : List Issue :=
  (fileIssue .limitUp (fs .limitUp)).toList ++
    (fileIssue .limitDown (fs .limitDown)).toList ++
    (fileIssue .explode (fs .explode)).toList

/-- The `stats` dict of `check_and_refetch_data`:
`{'total', 'to_refetch', 'already_complete', 'skipped_checked'}`. -/
structure ScanStats where
  total : Nat
  toRefetch : Nat
  alreadyComplete : Nat
  skippedChecked : Nat
  deriving DecidableEq, Repr

/-- One iteration of the date loop of `check_and_refetch_data`
(lines 106-171): a marked date only bumps `skipped_checked` and is
never inspected; otherwise `total` is bumped and the date goes to
`already_complete` or to `to_refetch` (appended to `dates_to_refetch`)
according to its issue list. -/
def scanStep (markers : List (String × String)) (fs : String → Cat → FileState)
    (acc : ScanStats × List String) (d : String) : ScanStats × List String :=
  let stats := acc.1
  let refetch := acc.2
  if (lookupMarker markers d).isSome then
    ({ stats with skippedChecked := stats.skippedChecked + 1 }, refetch)
  else
    let stats1 := { stats with total := stats.total + 1 }
    if dateIssues (fs d) ≠ [] then
      ({ stats1 with toRefetch := stats1.toRefetch + 1 }, refetch ++ [d])
    else
      ({ stats1 with alreadyComplete := stats1.alreadyComplete + 1 }, refetch)

/-- The full completeness scan of `check_and_refetch_data` over the
(sorted) dates discovered from the `limit_up` directory listing:
returns the final stats and `dates_to_refetch`. -/
def scanDates (markers : List (String × String)) (fs : String → Cat → FileState)
    (dates : List String) : ScanStats × List String :=
  dates.foldl (scanStep markers fs) (⟨0, 0, 0, 0⟩, [])

/-- `all_ok` contribution of one file in `check_specific_date`
(lines 385-400): ok iff the file exists, parses, and its count is not
`== 0`. -/
def fileOk : FileState → Bool
  | .missing => false
  | .corrupt => false
  | .parsed n => decide (n ≠ 0)

/-- `check_specific_date` (lines 353-403): a marked date returns `True`
without touching its files; otherwise the conjunction of the three
per-file checks. -/
def check_specific_date (markers : List (String × String))
    (fs : Cat → FileState) (d : String) : Bool :=
  if (lookupMarker markers d).isSome then true
  else
    fileOk (fs .limitUp) && fileOk (fs .limitDown) && fileOk (fs .explode)

/-- The `--date D` branch of `__main__` (lines 434-436): it calls
`check_specific_date(args.date)`, discards the returned boolean, and
the script falls off the end, so the process exit status is 0. -/
def mainDateExitCode (markers : List (String × String))
    (fs : Cat → FileState) (d : String) : Nat :=
  let _ := check_specific_date markers fs d
  0

/-- On-disk state of the marker file `data/.checked_dates.json`:
absent, present but not valid JSON, or a parsed date→reason mapping. -/
inductive MarkerFile where
  | absent
  | corrupt
  | valid (m : List (String × String))
  deriving DecidableEq, Repr

/-- `load_checked_markers` (lines 19-32): a missing file or a
`json.load` failure both fall through to `return {}`; a valid file
returns its mapping. -/
def load_checked_markers : MarkerFile → List (String × String)
  | .absent => []
  | .corrupt => []
  | .valid m => m

/-- `markers[date] = reason`: replace the binding for `date` if
present, else append it. -/
def insertMarker (m : List (String × String)) (d r : String) :
    List (String × String) :=
  match m with
  | [] => [(d, r)]
  | (k, v) :: rest =>
    if k = d then (k, r) :: rest else (k, v) :: insertMarker rest d r

/-- `mark_date_checked` (lines 51-62): load the marker file, set
`markers[date] = reason`, and return the mapping that gets saved. -/
def mark_date_checked (mf : MarkerFile) (d r : String) :
    List (String × String) :=
  insertMarker (load_checked_markers mf) d r

/-- One upstream stock-pool record: an opaque payload plus the `date`
key that `fetch_two_months_data` injects via `item['date'] = date`. -/
structure StockRec where
  date : Option String
  payload : String
  deriving DecidableEq, Repr

/-- `item['date'] = date` on one record. -/
def setRecDate (d : String) (r : StockRec) : StockRec :=
  { r with date := some d }

/-- One snapshot document `{"date": ..., "count": ..., "data": ...}`
as serialized by `json.dump`. -/
structure Snapshot where
  date : String
  count : Nat
  data : List StockRec
  deriving DecidableEq, Repr

/-- Content of a file on disk: a snapshot document written by this
system, or arbitrary pre-existing bytes (possibly not valid JSON). -/
inductive FileData where
  | snap (s : Snapshot)
  | raw (bytes : String)
  deriving DecidableEq, Repr

/-- The per-category snapshot directories `data/history/{cat}/{date}.json`,
as a map from category and date to the file's content (none = absent). -/
def Disk : Type := Cat → String → Option FileData

/-- Overwrite the file for `(c, d)` with `fd`. -/
def writeFile (disk : Disk) (c : Cat) (d : String) (fd : FileData) : Disk :=
  fun c2 d2 => if c2 = c ∧ d2 = d then some fd else disk c2 d2

/-- One category step of `refetch_data` (e.g. lines 222-231 for 涨停):
if the fetched list is non-empty, overwrite
`data/history/{cat}/{date}.json` with
`{"date": date, "count": len(rs), "data": rs}`; otherwise perform no
write at all. -/
def refetchCatWrite (disk : Disk) (d : String) (c : Cat)
    (rs : List StockRec) : Disk :=
  if rs.isEmpty then disk
  else writeFile disk c d (.snap ⟨d, rs.length, rs⟩)

/-- The three sequential category writes of `refetch_data` for one date
(lines 221-267), in source order limit_up, limit_down, explode. -/
def refetchDateDisk (disk : Disk) (d : String)
    (fetch : Cat → List StockRec) : Disk :=
  refetchCatWrite
    (refetchCatWrite
      (refetchCatWrite disk d .limitUp (fetch .limitUp))
      d .limitDown (fetch .limitDown))
    d .explode (fetch .explode)

/-- One category step of `fetch_two_months_data` (e.g. lines 289-305):
if the fetched list is non-empty, every record first gets
`item['date'] = date` and the snapshot
`{"date": date, "count": len(rs), "data": rs}` is written (the in-place
mutation preserves the list length); an empty fetch writes nothing. -/
def twoMonthsCatWrite (disk : Disk) (d : String) (c : Cat)
    (rs : List StockRec) : Disk :=
  if rs.isEmpty then disk
  else
    let stamped := rs.map (setRecDate d)
    writeFile disk c d (.snap ⟨d, stamped.length, stamped⟩)

/-- The three per-date writes of `fetch_two_months_data`
(lines 286-351), in source order limit_up, limit_down, explode. -/
def twoMonthsDateDisk (disk : Disk) (d : String)
    (fetch : Cat → List StockRec) : Disk :=
  twoMonthsCatWrite
    (twoMonthsCatWrite
      (twoMonthsCatWrite disk d .limitUp (fetch .limitUp))
      d .limitDown (fetch .limitDown))
    d .explode (fetch .explode)

/-- The per-date counts and verdict of `refetch_data` (lines 217-270):
each `*_count` is `len(list)` when the fetch returned data and stays 0
otherwise, and `has_issue = (limit_up_count == 0 or
limit_down_count == 0 or explode_count == 0)`. -/
def refetchHasIssue (lu ld ex : List StockRec) : Bool :=
  let luCount := if lu.isEmpty then 0 else lu.length
  let ldCount := if ld.isEmpty then 0 else ld.length
  let exCount := if ex.isEmpty then 0 else ex.length
  luCount == 0 || ldCount == 0 || exCount == 0

/-- Per-run tally of `refetch_data`: `success_count`, `fail_count`, and
the `still_failed_dates` list. -/
structure RefetchTally where
  success : Nat
  failed : Nat
  stillFailedDates : List String
  deriving DecidableEq, Repr

/-- One iteration of the refetch loop (lines 214-276): fetch the three
pools for the date and classify it by the any-zero rule, appending
still-failing dates to `still_failed_dates`. -/
def refetchStep (fetch : String → Cat → List StockRec)
    (acc : RefetchTally) (d : String) : RefetchTally :=
  if refetchHasIssue (fetch d .limitUp) (fetch d .limitDown)
      (fetch d .explode) then
    { acc with failed := acc.failed + 1,
               stillFailedDates := acc.stillFailedDates ++ [d] }
  else
    { acc with success := acc.success + 1 }

/-- The classification part of `refetch_data` over the whole date list. -/
def refetch_data (fetch : String → Cat → List StockRec)
    (dates : List String) : RefetchTally :=
  dates.foldl (refetchStep fetch) ⟨0, 0, []⟩

/-- Mutable state of `ZhituAPIFetcher`: the ordered token list,
`current_token_index`, the `failed_tokens` set (membership in a list),
and `last_used_token`. -/
structure FetcherSt where
  tokens : List String
  currentTokenIndex : Nat
  failedTokens : List String
  lastUsedToken : Option String
  deriving DecidableEq, Repr

/-- The `for _ in range(len(self.tokens))` scan of `_get_next_token`
(lines 60-74), with the remaining iteration count as fuel: read the
token at the current index, advance the index modulo the list length,
skip tokens in the failed set, and return the first available token
together with the advanced index. -/
def scanTokens (tokens failedTokens : List String) (idx : Nat) :
    Nat → Option (String × Nat)
  | 0 => none
  | fuel + 1 =>
    let t := tokens.getD idx ""
    let idx2 := (idx + 1) % tokens.length
    if t ∈ failedTokens then scanTokens tokens failedTokens idx2 fuel
    else some (t, idx2)

/-- `_get_next_token` (lines 55-83): `none` models the `ValueError`
raised on an empty token list; otherwise the round-robin scan, and when
every token is in the failed set the fallback (lines 76-83) clears
`failed_tokens` and returns `tokens[start_index]`, advancing the index
past it. -/
def getNextToken (s : FetcherSt) : Option (String × FetcherSt) :=
  if s.tokens.isEmpty then none
  else
    match scanTokens s.tokens s.failedTokens s.currentTokenIndex
        s.tokens.length with
    | some (t, idx2) =>
      some (t, { s with currentTokenIndex := idx2, lastUsedToken := some t })
    | none =>
      some (s.tokens.getD s.currentTokenIndex "",
        { s with
            currentTokenIndex := (s.currentTokenIndex + 1) % s.tokens.length,
            failedTokens := [],
            lastUsedToken := some (s.tokens.getD s.currentTokenIndex "") })

/-- Python `a or b` on an optional string: `b` when `a` is `None` or
the empty string (both falsy). -/
def pyOr (a : Option String) (b : String) : String :=
  match a with
  | none => b
  | some s => if s = "" then b else s

/-- `self.failed_tokens.add(t); self.last_used_token = None`
(e.g. lines 152-153). -/
def markFailed (s : FetcherSt) (t : String) : FetcherSt :=
  { s with failedTokens := t :: s.failedTokens, lastUsedToken := none }

/-- JSON values as far as `_fetch` inspects them. -/
inductive Json where
  | arr (xs : List Json)
  | obj (fields : List (String × Json))
  | num (n : Int)
  | str (s : String)
  | bool (b : Bool)
  | null

/-- `d.get(key)` on a parsed JSON object. -/
def getField : List (String × Json) → String → Option Json
  | [], _ => none
  | (k, v) :: rest, key => if k = key then some v else getField rest key

/-- `data.get("code") == 200`: true exactly when the `code` key holds
the number 200 (an absent key yields `None`, never equal to 200). -/
def isCode200 : Option Json → Bool
  | some (.num n) => n == 200
  | _ => false

/-- The response-shape dispatch of `_fetch` (lines 171-189): a bare
array is returned as-is; a dict with `code == 200` returns its `data`
value if that is a list, the `data` dict's `list` entry (defaulting to
`[]`) if `data` is a dict (an absent `data` key defaults to `{}`), and
`[]` for any other `data` value; a dict with `code != 200` and every
non-array non-dict body return `[]`. -/
def parseResponse : Json → Json
  | .arr xs => .arr xs
  | .obj fields =>
    if isCode200 (getField fields "code") then
      match (getField fields "data").getD (.obj []) with
      | .arr xs => .arr xs
      | .obj f2 => (getField f2 "list").getD (.arr [])
      | _ => .arr []
    else .arr []
  | _ => .arr []

/-- Outcome of `requests.get` as `_fetch` distinguishes them: a
timeout, another request exception, any other exception, or an HTTP
response with a status code and a body that either parses as JSON or
raises `json.JSONDecodeError` (`none`). -/
inductive HttpOutcome where
  | timeout
  | requestError
  | otherExn
  | status (code : Nat) (body : Option Json)

/-- `_fetch` (lines 127-204) given the token embedded in the request
URL and the HTTP outcome: 401/403/429 add the tracking token
(`self.last_used_token or token`) to the failed set and return `[]`;
any other status `>= 400` makes `raise_for_status` raise, which the
`RequestException` handler turns into `[]`; a body that fails to parse
returns `[]`; every exception path returns `[]` instead of
propagating; a parsed body goes through the shape dispatch. -/
def fetchStep (s : FetcherSt) (urlToken : String) (o : HttpOutcome) :
    Json × FetcherSt :=
  match o with
  | .timeout => (.arr [], s)
  | .requestError => (.arr [], s)
  | .otherExn => (.arr [], s)
  | .status code body =>
    let tracking := pyOr s.lastUsedToken urlToken
    if code = 401 then (.arr [], markFailed s tracking)
    else if code = 403 then (.arr [], markFailed s tracking)
    else if code = 429 then (.arr [], markFailed s tracking)
    else if 400 ≤ code then (.arr [], s)
    else
      match body with
      | none => (.arr [], s)
      | some j => (parseResponse j, s)

/-- Test whether a file parsed with a strictly positive count (the
spec's wording, not the code's `count == 0` test). -/
def countPos : FileState → Bool
  | .parsed n => decide (0 < n)
  | _ => false

/-- Spec-worded completeness predicate for one date, for comparison
with the code's classification — taken from the spec's words: "all
three category files exist, parse as valid JSON, and report
`count > 0`". -/
def specCompleteGtZero (fs : Cat → FileState) : Bool :=
  countPos (fs .limitUp) && countPos (fs .limitDown) && countPos (fs .explode)

/-- File layout with a `count` of -1 in the limit-up file and positive
counts elsewhere. -/
def fsNegCount : Cat → FileState := fun c =>
  match c with
  | .limitUp => .parsed (-1)
  | _ => .parsed 1

/-- Disk with no files, for concrete instantiations. -/
def diskEmpty : Disk := fun _ _ => none

/-- Concrete fetch outcome: one limit-up record, nothing else. -/
def fetchLuOnly : Cat → List StockRec := fun c =>
  match c with
  | .limitUp => [⟨none, "rec"⟩]
  | _ => []

/-! ### Helper lemmas -/

theorem fileIssue_eq_none (c : Cat) (st : FileState) :
    fileIssue c st = none ↔ ∃ n : Int, n ≠ 0 ∧ st = .parsed n := by
  cases st with
  | missing => simp [fileIssue]
  | corrupt => simp [fileIssue]
  | parsed n =>
    by_cases h : n = 0
    · subst h
      simp [fileIssue]
    · simp only [fileIssue, if_neg h, true_iff]
      exact ⟨n, h, rfl⟩

theorem fileIssue_none_iff_fileOk (c : Cat) (st : FileState) :
    fileIssue c st = none ↔ fileOk st = true := by
  cases st with
  | missing => simp [fileIssue, fileOk]
  | corrupt => simp [fileIssue, fileOk]
  | parsed n =>
    by_cases h : n = 0 <;> simp [fileIssue, fileOk, h]

theorem dateIssues_eq_nil_iff (fs : Cat → FileState) :
    dateIssues fs = [] ↔
      fileIssue .limitUp (fs .limitUp) = none ∧
        fileIssue .limitDown (fs .limitDown) = none ∧
        fileIssue .explode (fs .explode) = none := by
  unfold dateIssues
  cases fileIssue .limitUp (fs .limitUp) <;>
    cases fileIssue .limitDown (fs .limitDown) <;>
    cases fileIssue .explode (fs .explode) <;>
    simp [Option.toList]

/-! ### C9 -/

/-- C9: `load_checked_markers` returns the empty mapping both when the
marker file is absent and when it exists but fails to parse as JSON
(the catch block swallows the exception), and `mark_date_checked` on
either state proceeds from that empty mapping, producing the singleton
mapping for the newly marked date. -/
theorem C9_marker_load_tolerant :
    load_checked_markers .absent = [] ∧
    load_checked_markers .corrupt = [] ∧
    (∀ d r, mark_date_checked .absent d r = [(d, r)]) ∧
    (∀ d r, mark_date_checked .corrupt d r = [(d, r)]) :=
  ⟨rfl, rfl, fun _ _ => rfl, fun _ _ => rfl⟩

/-! ### C3 -/

theorem mem_stillFailed_foldl (fetch : String → Cat → List StockRec)
    (dates : List String) (d : String) : ∀ acc : RefetchTally,
    (d ∈ (dates.foldl (refetchStep fetch) acc).stillFailedDates ↔
      d ∈ acc.stillFailedDates ∨
        (d ∈ dates ∧
          refetchHasIssue (fetch d .limitUp) (fetch d .limitDown)
            (fetch d .explode) = true)) := by
  induction dates with
  | nil => intro acc; simp
  | cons d0 rest ih =>
    intro acc
    rw [List.foldl_cons, ih]
    by_cases h : refetchHasIssue (fetch d0 .limitUp) (fetch d0 .limitDown)
        (fetch d0 .explode) = true
    · by_cases hd : d = d0
      · subst hd
        simp [refetchStep, h]
      · simp [refetchStep, h, hd]
    · by_cases hd : d = d0
      · subst hd
        simp [refetchStep, h]
      · simp [refetchStep, h, hd]

/-- C3: after the refetch orchestrator processes a date, the date is
judged still-failing (lands in `still_failed_dates`) iff at least one
of the three resulting counts is zero, equivalently iff at least one
fetched pool came back empty; in particular a date with counts
10, 0, 5 is classified still-failing. -/
theorem C3_still_failing_any_zero :
    (∀ lu ld ex : List StockRec,
      refetchHasIssue lu ld ex = true ↔ (lu = [] ∨ ld = [] ∨ ex = [])) ∧
    (∀ (fetch : String → Cat → List StockRec) (dates : List String)
        (d : String),
      d ∈ (refetch_data fetch dates).stillFailedDates ↔
        (d ∈ dates ∧
          refetchHasIssue (fetch d .limitUp) (fetch d .limitDown)
            (fetch d .explode) = true)) ∧
    (refetch_data
      (fun _ c =>
        match c with
        | .limitUp => List.replicate 10 (⟨none, "x"⟩ : StockRec)
        | .limitDown => []
        | .explode => List.replicate 5 (⟨none, "x"⟩ : StockRec))
      ["2024-01-05"]).stillFailedDates = ["2024-01-05"] := by
  refine ⟨?_, ?_, by decide⟩
  · intro lu ld ex
    cases lu <;> cases ld <;> cases ex <;> simp [refetchHasIssue]
  · intro fetch dates d
    rw [refetch_data, mem_stillFailed_foldl]
    simp

/-! ### C5 -/

/-- C5: `_fetch`'s handling of a successful HTTP response: a bare JSON
array is returned as-is; a dict envelope with `code == 200` and a
list-valued `data` field returns that list; with a dict-valued `data`
field it returns that dict's `list` entry (defaulting to the empty
list when absent, including when the `data` key itself is absent);
every other shape — an envelope whose code is not 200, a `data` value
of any other type, or a non-array non-dict body — yields the empty
list. -/
theorem C5_response_shape_dispatch :
    (∀ xs, parseResponse (.arr xs) = .arr xs) ∧
    (∀ fields xs, isCode200 (getField fields "code") = true →
      getField fields "data" = some (.arr xs) →
      parseResponse (.obj fields) = .arr xs) ∧
    (∀ fields f2, isCode200 (getField fields "code") = true →
      getField fields "data" = some (.obj f2) →
      parseResponse (.obj fields) = (getField f2 "list").getD (.arr [])) ∧
    (∀ fields, isCode200 (getField fields "code") = true →
      getField fields "data" = none →
      parseResponse (.obj fields) = .arr []) ∧
    (∀ fields, isCode200 (getField fields "code") = false →
      parseResponse (.obj fields) = .arr []) ∧
    (∀ fields n, isCode200 (getField fields "code") = true →
      getField fields "data" = some (.num n) →
      parseResponse (.obj fields) = .arr []) ∧
    (∀ fields s, isCode200 (getField fields "code") = true →
      getField fields "data" = some (.str s) →
      parseResponse (.obj fields) = .arr []) ∧
    (∀ n, parseResponse (.num n) = .arr []) ∧
    (∀ s, parseResponse (.str s) = .arr []) ∧
    (∀ b, parseResponse (.bool b) = .arr []) ∧
    parseResponse .null = .arr [] := by
  refine ⟨fun xs => rfl, ?_, ?_, ?_, ?_, ?_, ?_,
    fun n => rfl, fun s => rfl, fun b => rfl, rfl⟩
  · intro fields xs h1 h2
    simp [parseResponse, h1, h2]
  · intro fields f2 h1 h2
    simp [parseResponse, h1, h2]
  · intro fields h1 h2
    simp [parseResponse, h1, h2, getField]
  · intro fields h1
    simp [parseResponse, h1]
  · intro fields n h1 h2
    simp [parseResponse, h1, h2]
  · intro fields s h1 h2
    simp [parseResponse, h1, h2]

theorem C5_response_shape_dispatch_witness :
    parseResponse
        (.obj [("code", Json.num 200), ("data", Json.arr [Json.null])]) =
      .arr [Json.null] ∧
    parseResponse
        (.obj [("code", Json.num 200),
               ("data", Json.obj [("list", Json.arr [Json.null])])]) =
      .arr [Json.null] ∧
    parseResponse (.obj [("code", Json.num 500)]) = .arr [] := by
  refine ⟨?_, ?_, ?_⟩
  · exact C5_response_shape_dispatch.2.1
      [("code", Json.num 200), ("data", Json.arr [Json.null])]
      [Json.null] rfl rfl
  · exact (C5_response_shape_dispatch.2.2.1
      [("code", Json.num 200),
       ("data", Json.obj [("list", Json.arr [Json.null])])]
      [("list", Json.arr [Json.null])] rfl rfl).trans rfl
  · exact C5_response_shape_dispatch.2.2.2.2.1
      [("code", Json.num 500)] rfl

/-! ### C6 -/

/-- C6: `_fetch` never propagates an exception: a timeout, any other
request exception, and any unexpected exception all return the empty
list with the fetcher state unchanged; HTTP 401, 403 and 429 add the
tracking token (`self.last_used_token or token`) to the failed set and
return the empty list; any other error status (`raise_for_status`
path) and a body that fails JSON parsing also return the empty list. -/
theorem C6_fetch_error_handling :
    (∀ s u, fetchStep s u .timeout = (.arr [], s)) ∧
    (∀ s u, fetchStep s u .requestError = (.arr [], s)) ∧
    (∀ s u, fetchStep s u .otherExn = (.arr [], s)) ∧
    (∀ s u body code, code = 401 ∨ code = 403 ∨ code = 429 →
      fetchStep s u (.status code body) =
        (.arr [], markFailed s (pyOr s.lastUsedToken u)) ∧
      pyOr s.lastUsedToken u ∈
        (fetchStep s u (.status code body)).2.failedTokens) ∧
    (∀ s u body code, 400 ≤ code → code ≠ 401 → code ≠ 403 → code ≠ 429 →
      fetchStep s u (.status code body) = (.arr [], s)) ∧
    (∀ s u code, code < 400 →
      fetchStep s u (.status code none) = (.arr [], s)) := by
  refine ⟨fun s u => rfl, fun s u => rfl, fun s u => rfl, ?_, ?_, ?_⟩
  · intro s u body code hcode
    rcases hcode with h | h | h <;> subst h <;>
      exact ⟨rfl, by simp [fetchStep, markFailed]⟩
  · intro s u body code h400 h401 h403 h429
    simp [fetchStep, h401, h403, h429, h400]
  · intro s u code hlt
    have h401 : code ≠ 401 := by omega
    have h403 : code ≠ 403 := by omega
    have h429 : code ≠ 429 := by omega
    have h400 : ¬400 ≤ code := by omega
    simp [fetchStep, h401, h403, h429, h400]

theorem C6_fetch_error_handling_witness :
    fetchStep ⟨["tokA", "tokB"], 1, [], some "tokA"⟩ "tokA"
        (.status 401 none) =
      (.arr [], markFailed ⟨["tokA", "tokB"], 1, [], some "tokA"⟩
        (pyOr (some "tokA") "tokA")) ∧
    pyOr (some "tokA") "tokA" ∈
      (fetchStep ⟨["tokA", "tokB"], 1, [], some "tokA"⟩ "tokA"
        (.status 401 none)).2.failedTokens ∧
    fetchStep ⟨["tokA", "tokB"], 1, [], some "tokA"⟩ "tokA"
        (.status 500 none) =
      (.arr [], ⟨["tokA", "tokB"], 1, [], some "tokA"⟩) ∧
    fetchStep ⟨["tokA", "tokB"], 1, [], some "tokA"⟩ "tokA"
        (.status 200 none) =
      (.arr [], ⟨["tokA", "tokB"], 1, [], some "tokA"⟩) := by
  refine ⟨?_, ?_, ?_, ?_⟩
  · exact (C6_fetch_error_handling.2.2.2.1 _ _ _ 401 (Or.inl rfl)).1
  · exact (C6_fetch_error_handling.2.2.2.1 _ _ _ 401 (Or.inl rfl)).2
  · exact C6_fetch_error_handling.2.2.2.2.1 _ _ _ 500 (by decide)
      (by decide) (by decide) (by decide)
  · exact C6_fetch_error_handling.2.2.2.2.2 _ _ 200 (by decide)

/-! ### Disk-write helper lemmas -/

theorem refetchCatWrite_other (disk : Disk) (d : String) (c : Cat)
    (rs : List StockRec) (c2 : Cat) (d2 : String) (h : c2 ≠ c) :
    refetchCatWrite disk d c rs c2 d2 = disk c2 d2 := by
  unfold refetchCatWrite
  split_ifs with h1
  · rfl
  · simp [writeFile, h]

theorem refetchCatWrite_self (disk : Disk) (d : String) (c : Cat)
    (rs : List StockRec) (d2 : String) :
    refetchCatWrite disk d c rs c d2 =
      if rs.isEmpty then disk c d2
      else if d2 = d then some (.snap ⟨d, rs.length, rs⟩) else disk c d2 := by
  unfold refetchCatWrite writeFile
  by_cases he : rs.isEmpty <;> simp [he]

theorem refetchDateDisk_at (disk : Disk) (d : String)
    (fetch : Cat → List StockRec) (c : Cat) (d2 : String) :
    refetchDateDisk disk d fetch c d2 =
      refetchCatWrite disk d c (fetch c) c d2 := by
  cases c
  · simp only [refetchDateDisk]
    rw [refetchCatWrite_other _ _ _ _ _ _ (by decide),
        refetchCatWrite_other _ _ _ _ _ _ (by decide)]
  · simp only [refetchDateDisk]
    rw [refetchCatWrite_other _ _ _ _ _ _ (by decide),
        refetchCatWrite_self, refetchCatWrite_self,
        refetchCatWrite_other _ _ _ _ _ _ (by decide)]
  · simp only [refetchDateDisk]
    rw [refetchCatWrite_self, refetchCatWrite_self,
        refetchCatWrite_other _ _ _ _ _ _ (by decide),
        refetchCatWrite_other _ _ _ _ _ _ (by decide)]

theorem refetchDateDisk_changed (disk : Disk) (d : String)
    (fetch : Cat → List StockRec) (c : Cat) (d2 : String)
    (h : refetchDateDisk disk d fetch c d2 ≠ disk c d2) :
    d2 = d ∧ fetch c ≠ [] ∧
      refetchDateDisk disk d fetch c d2 =
        some (.snap ⟨d, (fetch c).length, fetch c⟩) := by
  rw [refetchDateDisk_at, refetchCatWrite_self] at h ⊢
  by_cases he : (fetch c).isEmpty = true
  · exact absurd (if_pos he) h
  · rw [if_neg he] at h ⊢
    by_cases hd : d2 = d
    · subst hd
      exact ⟨rfl, fun hnil => he (by simp [hnil]), if_pos rfl⟩
    · rw [if_neg hd] at h
      exact absurd rfl h

theorem twoMonthsCatWrite_other (disk : Disk) (d : String) (c : Cat)
    (rs : List StockRec) (c2 : Cat) (d2 : String) (h : c2 ≠ c) :
    twoMonthsCatWrite disk d c rs c2 d2 = disk c2 d2 := by
  unfold twoMonthsCatWrite
  split_ifs with h1
  · rfl
  · simp [writeFile, h]

theorem twoMonthsCatWrite_self (disk : Disk) (d : String) (c : Cat)
    (rs : List StockRec) (d2 : String) :
    twoMonthsCatWrite disk d c rs c d2 =
      if rs.isEmpty then disk c d2
      else if d2 = d then
        some (.snap ⟨d, (rs.map (setRecDate d)).length, rs.map (setRecDate d)⟩)
      else disk c d2 := by
  unfold twoMonthsCatWrite writeFile
  by_cases he : rs.isEmpty <;> simp [he]

theorem twoMonthsDateDisk_at (disk : Disk) (d : String)
    (fetch : Cat → List StockRec) (c : Cat) (d2 : String) :
    twoMonthsDateDisk disk d fetch c d2 =
      twoMonthsCatWrite disk d c (fetch c) c d2 := by
  cases c
  · simp only [twoMonthsDateDisk]
    rw [twoMonthsCatWrite_other _ _ _ _ _ _ (by decide),
        twoMonthsCatWrite_other _ _ _ _ _ _ (by decide)]
  · simp only [twoMonthsDateDisk]
    rw [twoMonthsCatWrite_other _ _ _ _ _ _ (by decide),
        twoMonthsCatWrite_self, twoMonthsCatWrite_self,
        twoMonthsCatWrite_other _ _ _ _ _ _ (by decide)]
  · simp only [twoMonthsDateDisk]
    rw [twoMonthsCatWrite_self, twoMonthsCatWrite_self,
        twoMonthsCatWrite_other _ _ _ _ _ _ (by decide),
        twoMonthsCatWrite_other _ _ _ _ _ _ (by decide)]

theorem twoMonthsDateDisk_changed (disk : Disk) (d : String)
    (fetch : Cat → List StockRec) (c : Cat) (d2 : String)
    (h : twoMonthsDateDisk disk d fetch c d2 ≠ disk c d2) :
    d2 = d ∧ fetch c ≠ [] ∧
      twoMonthsDateDisk disk d fetch c d2 =
        some (.snap ⟨d, ((fetch c).map (setRecDate d)).length,
          (fetch c).map (setRecDate d)⟩) := by
  rw [twoMonthsDateDisk_at, twoMonthsCatWrite_self] at h ⊢
  by_cases he : (fetch c).isEmpty = true
  · exact absurd (if_pos he) h
  · rw [if_neg he] at h ⊢
    by_cases hd : d2 = d
    · subst hd
      exact ⟨rfl, fun hnil => he (by simp [hnil]), if_pos rfl⟩
    · rw [if_neg hd] at h
      exact absurd rfl h

/-! ### C7 -/

/-- C7: every snapshot file actually written by `refetch_data` or by
`fetch_two_months_data` — i.e. every `(category, date)` cell of the
disk the pass changes — holds a document whose `date` field is the
date being fetched, whose `count` field is the length of its `data`
list, and whose `data` list (the fetched records, date-stamped in the
bulk fetcher's case) is non-empty; in particular a write only occurs
when the fetched record list is non-empty. -/
theorem C7_written_snapshots_consistent :
    (∀ (disk : Disk) (d : String) (fetch : Cat → List StockRec)
        (c : Cat) (d2 : String),
      refetchDateDisk disk d fetch c d2 ≠ disk c d2 →
      d2 = d ∧ fetch c ≠ [] ∧
        refetchDateDisk disk d fetch c d2 =
          some (.snap ⟨d, (fetch c).length, fetch c⟩)) ∧
    (∀ (disk : Disk) (d : String) (fetch : Cat → List StockRec)
        (c : Cat) (d2 : String),
      twoMonthsDateDisk disk d fetch c d2 ≠ disk c d2 →
      d2 = d ∧ fetch c ≠ [] ∧
        twoMonthsDateDisk disk d fetch c d2 =
          some (.snap ⟨d, ((fetch c).map (setRecDate d)).length,
            (fetch c).map (setRecDate d)⟩)) :=
  ⟨refetchDateDisk_changed, twoMonthsDateDisk_changed⟩

theorem C7_written_snapshots_consistent_witness :
    (("2024-01-02" : String) = "2024-01-02" ∧ fetchLuOnly .limitUp ≠ [] ∧
      refetchDateDisk diskEmpty "2024-01-02" fetchLuOnly .limitUp "2024-01-02" =
        some (.snap ⟨"2024-01-02", (fetchLuOnly .limitUp).length,
          fetchLuOnly .limitUp⟩)) ∧
    (("2024-01-02" : String) = "2024-01-02" ∧ fetchLuOnly .limitUp ≠ [] ∧
      twoMonthsDateDisk diskEmpty "2024-01-02" fetchLuOnly .limitUp "2024-01-02" =
        some (.snap ⟨"2024-01-02",
          ((fetchLuOnly .limitUp).map (setRecDate "2024-01-02")).length,
          (fetchLuOnly .limitUp).map (setRecDate "2024-01-02")⟩)) :=
  ⟨C7_written_snapshots_consistent.1 diskEmpty "2024-01-02" fetchLuOnly
      .limitUp "2024-01-02" (by decide),
    C7_written_snapshots_consistent.2 diskEmpty "2024-01-02" fetchLuOnly
      .limitUp "2024-01-02" (by decide)⟩

/-! ### C10 -/

/-- C10: during a refetch pass over one date, a category whose fetch
came back empty gets no write at all — the disk cell for that
`(category, date)` pair is exactly what it was before, whatever its
previous content; a category whose fetch came back non-empty is
written regardless of the other categories' outcomes; and no cell of
any other date is touched. -/
theorem C10_empty_fetch_writes_nothing :
    (∀ (disk : Disk) (d : String) (fetch : Cat → List StockRec) (c : Cat),
      fetch c = [] → refetchDateDisk disk d fetch c d = disk c d) ∧
    (∀ (disk : Disk) (d : String) (fetch : Cat → List StockRec) (c : Cat),
      fetch c ≠ [] →
      refetchDateDisk disk d fetch c d =
        some (.snap ⟨d, (fetch c).length, fetch c⟩)) ∧
    (∀ (disk : Disk) (d : String) (fetch : Cat → List StockRec)
        (c : Cat) (d2 : String),
      d2 ≠ d → refetchDateDisk disk d fetch c d2 = disk c d2) := by
  refine ⟨?_, ?_, ?_⟩
  · intro disk d fetch c h
    rw [refetchDateDisk_at, refetchCatWrite_self, if_pos (by simp [h])]
  · intro disk d fetch c h
    rw [refetchDateDisk_at, refetchCatWrite_self,
        if_neg (by simp [h]), if_pos rfl]
  · intro disk d fetch c d2 h
    rw [refetchDateDisk_at, refetchCatWrite_self]
    by_cases h1 : (fetch c).isEmpty = true
    · rw [if_pos h1]
    · rw [if_neg h1, if_neg h]

theorem C10_empty_fetch_writes_nothing_witness :
    refetchDateDisk diskEmpty "2024-01-02" fetchLuOnly .limitDown "2024-01-02" =
      diskEmpty .limitDown "2024-01-02" ∧
    refetchDateDisk diskEmpty "2024-01-02" fetchLuOnly .limitUp "2024-01-02" =
      some (.snap ⟨"2024-01-02", (fetchLuOnly .limitUp).length,
        fetchLuOnly .limitUp⟩) ∧
    refetchDateDisk diskEmpty "2024-01-02" fetchLuOnly .limitUp "2024-01-03" =
      diskEmpty .limitUp "2024-01-03" :=
  ⟨C10_empty_fetch_writes_nothing.1 diskEmpty "2024-01-02" fetchLuOnly
      .limitDown rfl,
    C10_empty_fetch_writes_nothing.2.1 diskEmpty "2024-01-02" fetchLuOnly
      .limitUp (by decide),
    C10_empty_fetch_writes_nothing.2.2 diskEmpty "2024-01-02" fetchLuOnly
      .limitUp "2024-01-03" (by decide)⟩

/-! ### C1 -/

/-- C1 (counterexample): a limit-up file that parses with `count: -1`
draws no issue — the code only tests `count == 0` — so the checker
classifies the date as complete (`already_complete` = 1, nothing to
refetch) even though the spec-worded condition "all three files report
`count > 0`" is false for it. -/
theorem C1_counterexample_negative_count :
    scanDates [] (fun _ => fsNegCount) ["2024-01-02"] = (⟨1, 0, 1, 0⟩, []) ∧
    specCompleteGtZero fsNegCount = false := by
  exact ⟨by decide, rfl⟩

/-- C1 (amended): for a date not present in the marker store, the
checker classifies it as complete iff all three category files exist,
parse, and report a count different from 0 (the code tests
`count == 0`, not `count > 0`); a missing file, a parse failure, or a
zero count each yields an issue and routes the date into the
to-refetch set. -/
theorem C1_complete_iff_all_nonzero (markers : List (String × String))
    (fs : String → Cat → FileState) (d : String)
    (h : lookupMarker markers d = none) :
    (dateIssues (fs d) = [] ↔
      (∃ n : Int, n ≠ 0 ∧ fs d .limitUp = .parsed n) ∧
        (∃ n : Int, n ≠ 0 ∧ fs d .limitDown = .parsed n) ∧
        (∃ n : Int, n ≠ 0 ∧ fs d .explode = .parsed n)) ∧
    (dateIssues (fs d) = [] →
      scanDates markers fs [d] = (⟨1, 0, 1, 0⟩, [])) ∧
    (dateIssues (fs d) ≠ [] →
      scanDates markers fs [d] = (⟨1, 1, 0, 0⟩, [d])) := by
  refine ⟨?_, ?_, ?_⟩
  · rw [dateIssues_eq_nil_iff]
    exact and_congr (fileIssue_eq_none _ _)
      (and_congr (fileIssue_eq_none _ _) (fileIssue_eq_none _ _))
  · intro hc
    simp [scanDates, scanStep, h, hc]
  · intro hc
    simp [scanDates, scanStep, h, hc]

theorem C1_complete_iff_all_nonzero_witness :
    scanDates [] (fun _ _ => FileState.parsed 5) ["2024-01-02"] =
      (⟨1, 0, 1, 0⟩, []) :=
  (C1_complete_iff_all_nonzero [] (fun _ _ => FileState.parsed 5)
    "2024-01-02" rfl).2.1 (by decide)

/-! ### C2 -/

theorem scanDates_congr (markers : List (String × String))
    (fs fs2 : String → Cat → FileState)
    (h : ∀ d, (lookupMarker markers d).isSome = false → fs d = fs2 d) :
    ∀ (dates : List String) (acc : ScanStats × List String),
      dates.foldl (scanStep markers fs) acc =
        dates.foldl (scanStep markers fs2) acc := by
  intro dates
  induction dates with
  | nil => intro acc; rfl
  | cons d rest ih =>
    intro acc
    rw [List.foldl_cons, List.foldl_cons]
    have hstep : scanStep markers fs acc d = scanStep markers fs2 acc d := by
      unfold scanStep
      cases hm : (lookupMarker markers d).isSome with
      | true => simp [hm]
      | false => rw [h d hm]
    rw [hstep]
    exact ih _

/-- C2: a date present as a key in the marker store is skipped
entirely: scanning it alone only bumps `skipped_checked` and adds
nothing to the refetch list, and the whole scan result is independent
of the file states of marked dates — two file layouts that agree on
every unmarked date produce identical scans. -/
theorem C2_marked_dates_skipped :
    (∀ (markers : List (String × String)) (fs : String → Cat → FileState)
        (d r : String),
      lookupMarker markers d = some r →
      scanDates markers fs [d] = (⟨0, 0, 0, 1⟩, [])) ∧
    (∀ (markers : List (String × String))
        (fs fs2 : String → Cat → FileState) (dates : List String),
      (∀ d, (lookupMarker markers d).isSome = false → fs d = fs2 d) →
      scanDates markers fs dates = scanDates markers fs2 dates) := by
  constructor
  · intro markers fs d r h
    simp [scanDates, scanStep, h]
  · intro markers fs fs2 dates h
    exact scanDates_congr markers fs fs2 h dates _

theorem C2_marked_dates_skipped_witness :
    scanDates [("2024-01-04", "holiday")] (fun _ _ => FileState.parsed 0)
        ["2024-01-04"] = (⟨0, 0, 0, 1⟩, []) ∧
    scanDates [("2024-01-04", "holiday")] (fun _ _ => FileState.parsed 0)
        ["2024-01-04"] =
      scanDates [("2024-01-04", "holiday")]
        (fun d _ => if d = "2024-01-04" then FileState.missing
          else FileState.parsed 0)
        ["2024-01-04"] :=
  ⟨C2_marked_dates_skipped.1 [("2024-01-04", "holiday")]
      (fun _ _ => FileState.parsed 0) "2024-01-04" "holiday" rfl,
    C2_marked_dates_skipped.2 [("2024-01-04", "holiday")]
      (fun _ _ => FileState.parsed 0)
      (fun d _ => if d = "2024-01-04" then FileState.missing
        else FileState.parsed 0)
      ["2024-01-04"]
      (fun d hd => by
        have hne : d ≠ "2024-01-04" := by
          intro he
          subst he
          simp [lookupMarker] at hd
        funext c
        simp [hne])⟩

/-! ### C8 -/

/-- C8 (counterexample): `__main__` calls `check_specific_date` and
discards its boolean, so the process exit status is 0 both for a fully
complete date and for a date whose three files are all missing — the
exit status does not distinguish the two cases. -/
theorem C8_counterexample_exit_status :
    check_specific_date [] (fun _ => FileState.parsed 5) "2024-01-15" = true ∧
    check_specific_date [] (fun _ => FileState.missing) "2024-01-15" = false ∧
    mainDateExitCode [] (fun _ => FileState.parsed 5) "2024-01-15" = 0 ∧
    mainDateExitCode [] (fun _ => FileState.missing) "2024-01-15" = 0 :=
  ⟨rfl, rfl, rfl, rfl⟩

/-- C8 (amended): `check --date D` checks the single date D and
`check_specific_date` returns a boolean that is true iff D is marked
or all three files are present, valid and of nonzero count — but the
returned boolean is discarded by `__main__`, so the process exit
status is 0 in both cases rather than boolean-equivalent. -/
theorem C8_date_check_returns_bool :
    (∀ (markers : List (String × String)) (fs : Cat → FileState)
        (d : String), mainDateExitCode markers fs d = 0) ∧
    (∀ (markers : List (String × String)) (fs : Cat → FileState)
        (d : String),
      check_specific_date markers fs d = true ↔
        ((lookupMarker markers d).isSome = true ∨ dateIssues fs = [])) := by
  constructor
  · intro markers fs d
    rfl
  · intro markers fs d
    unfold check_specific_date
    cases hm : (lookupMarker markers d).isSome with
    | true => simp [hm]
    | false =>
      rw [dateIssues_eq_nil_iff]
      simp [hm, Bool.and_eq_true, fileIssue_none_iff_fileOk, and_assoc]

/-! ### C4 -/

theorem scanTokens_none_of_all_failed (tokens failedTokens : List String)
    (hall : ∀ t ∈ tokens, t ∈ failedTokens) :
    ∀ (fuel idx : Nat), idx < tokens.length →
      scanTokens tokens failedTokens idx fuel = none := by
  intro fuel
  induction fuel with
  | zero => intro idx _; rfl
  | succ n ih =>
    intro idx hidx
    have hmem : tokens.getD idx "" ∈ tokens := by
      rw [List.getD_eq_getElem _ _ hidx]
      exact List.getElem_mem hidx
    simp only [scanTokens, if_pos (hall _ hmem)]
    exact ih _ (Nat.mod_lt _ (by omega))

/-- C4: `_get_next_token` raises only on an empty token list (for a
non-empty list the selection always returns a credential); when every
token is in the failed set, the selection clears the failed set and
returns the token at the position where the scan began, advancing the
index past it; and in the two-credential scenario with credential 1
failed, successive selections return credential 2 (leaving the state
fixed), and once credential 2 is also marked failed the rotation
resets and retries credential 1. -/
theorem C4_token_round_robin :
    (∀ s : FetcherSt, s.tokens ≠ [] → (getNextToken s).isSome = true) ∧
    (∀ s : FetcherSt, s.currentTokenIndex < s.tokens.length →
      (∀ t ∈ s.tokens, t ∈ s.failedTokens) →
      getNextToken s =
        some (s.tokens.getD s.currentTokenIndex "",
          { s with
              currentTokenIndex :=
                (s.currentTokenIndex + 1) % s.tokens.length,
              failedTokens := [],
              lastUsedToken :=
                some (s.tokens.getD s.currentTokenIndex "") })) ∧
    getNextToken ⟨["cred1", "cred2"], 0, ["cred1"], none⟩ =
      some ("cred2", ⟨["cred1", "cred2"], 0, ["cred1"], some "cred2"⟩) ∧
    getNextToken ⟨["cred1", "cred2"], 0, ["cred1"], some "cred2"⟩ =
      some ("cred2", ⟨["cred1", "cred2"], 0, ["cred1"], some "cred2"⟩) ∧
    getNextToken
        (markFailed ⟨["cred1", "cred2"], 0, ["cred1"], some "cred2"⟩
          "cred2") =
      some ("cred1", ⟨["cred1", "cred2"], 1, [], some "cred1"⟩) := by
  refine ⟨?_, ?_, by decide, by decide, by decide⟩
  · intro s hne
    have hemp : s.tokens.isEmpty = false := by
      cases htok : s.tokens with
      | nil => exact absurd htok hne
      | cons a l => rfl
    unfold getNextToken
    rw [if_neg (by simp [hemp])]
    cases hscan : scanTokens s.tokens s.failedTokens s.currentTokenIndex
        s.tokens.length with
    | none => simp [hscan]
    | some p =>
      obtain ⟨t, idx2⟩ := p
      simp [hscan]
  · intro s hidx hall
    have hne : s.tokens ≠ [] := by
      intro htok
      rw [htok] at hidx
      simp at hidx
    have hemp : s.tokens.isEmpty = false := by
      cases htok : s.tokens with
      | nil => exact absurd htok hne
      | cons a l => rfl
    unfold getNextToken
    rw [if_neg (by simp [hemp]),
        scanTokens_none_of_all_failed s.tokens s.failedTokens hall
          s.tokens.length s.currentTokenIndex hidx]

theorem C4_token_round_robin_witness :
    (getNextToken ⟨["cred1", "cred2"], 0, ["cred1"], none⟩).isSome = true ∧
    getNextToken ⟨["cred1", "cred2"], 0, ["cred1", "cred2"], none⟩ =
      some ("cred1", ⟨["cred1", "cred2"], 1, [], some "cred1"⟩) :=
  ⟨C4_token_round_robin.1 ⟨["cred1", "cred2"], 0, ["cred1"], none⟩
      (by decide),
    C4_token_round_robin.2.1
      ⟨["cred1", "cred2"], 0, ["cred1", "cred2"], none⟩
      (by decide) (by decide)⟩

end Lbgpfx
